import Mathlib

/-!
Verification of the capybara CRUD service.

The repository contains two variants of the same HTTP service:

* `app.js` — the in-memory variant: a module-level array `capybaras`
  and five Express handlers (list, get by id, post, put, delete).
* an unnamed module — the relational variant: the same five handlers
  issuing SQL statements against a `capybara` table.

We embed both shallowly.  JavaScript numbers used as ids are modelled by
`Int`; the path parameter goes through `parseInt`, which we model as
`Option Int`, where `none` stands for `NaN` (a comparison of `NaN` with
anything via strict equality is `false`, hence the `none` branch of
`idMatches` below).  A request body is modelled by the optional `name`
field it may carry: `none` when the field is missing or undefined,
`some s` otherwise; the JavaScript truthiness test `!name` is `true`
exactly when the field is missing or the empty string (`nameFalsy`).
-/

/-- A capybara record: `{ id, name }`. -/
structure Capybara where
  id : Int
  name : String
deriving Repr, DecidableEq

/-- The JSON value carried by a response body. -/
inductive ResBody where
  | list (cs : List Capybara)
  | one (c : Capybara)
  | message (m : String)
  | empty
deriving Repr, DecidableEq

/-- An HTTP response: status code and JSON body. -/
structure Response where
  status : Nat
  body : ResBody
deriving Repr, DecidableEq

/-- `!name` on the destructured body field: `true` when the `name`
property is missing/undefined (`none`) or the empty string. -/
def nameFalsy : Option String → Bool
  | none => true
  | some n => n.isEmpty

/-- The predicate `c.id === parseInt(req.params.id)` used by `find` and
`findIndex` in `app.js`.  When `parseInt` yields `NaN` (modelled by
`none`) the strict comparison is `false` for every record. -/
def idMatches (pid : Option Int) (c : Capybara) : Bool :=
  match pid with
  | some i => c.id == i
  | none => false

/-- `app.get(/capybaras)` in `app.js`: `res.json(capybaras)`. -/
def listCapybaras (s : List Capybara) : Response :=
  ⟨200, .list s⟩

/-- `app.get(/capybaras/:id)` in `app.js`: `capybaras.find(...)`,
404 when absent, otherwise the record. -/
def getCapybara (pid : Option Int) (s : List Capybara) : Response :=
  match s.find? (idMatches pid) with
  | none => ⟨404, .message "Capybara not found"⟩
  | some c => ⟨200, .one c⟩

/-- `app.post(/capybaras)` in `app.js`: reject a falsy name with 400,
otherwise push `{ id: capybaras.length + 1, name }` and answer 201. -/
def postCapybara (name : Option String) (s : List Capybara) :
    Response × List Capybara :=
  if nameFalsy name then (⟨400, .message "Name is required"⟩, s)
  else
    let c : Capybara := ⟨(s.length : Int) + 1, name.getD ""⟩
    (⟨201, .one c⟩, s ++ [c])

/-- Mutation of the object returned by `capybaras.find`: the first
element satisfying `p` is replaced by `f` of it, the rest is untouched. -/
def updateFirst (p : Capybara → Bool) (f : Capybara → Capybara) :
    List Capybara → List Capybara
  | [] => []
  | c :: cs => if p c then f c :: cs else c :: updateFirst p f cs

/-- `app.put(/capybaras/:id)` in `app.js`: `find` first (404 when
absent), then the falsy-name check (400), then `capybara.name = name`
on the found object and 200 with the mutated record. -/
def putCapybara (pid : Option Int) (name : Option String)
    (s : List Capybara) : Response × List Capybara :=
  match s.find? (idMatches pid) with
  | none => (⟨404, .message "Capybara not found"⟩, s)
  | some c =>
    if nameFalsy name then (⟨400, .message "Name is required"⟩, s)
    else
      let c2 : Capybara := { c with name := name.getD "" }
      (⟨200, .one c2⟩,
        updateFirst (idMatches pid) (fun x => { x with name := name.getD "" }) s)

/-- `app.delete(/capybaras/:id)` in `app.js`: `findIndex` (404 on `-1`,
modelled by `none`), then `splice(index, 1)` and 204. -/
def deleteCapybara (pid : Option Int) (s : List Capybara) :
    Response × List Capybara :=
  match s.findIdx? (idMatches pid) with
  | none => (⟨404, .message "Capybara not found"⟩, s)
  | some i => (⟨204, .empty⟩, s.eraseIdx i)

/-- One HTTP request against the in-memory variant. -/
inductive Request where
  | list
  | get (pid : Option Int)
  | post (name : Option String)
  | put (pid : Option Int) (name : Option String)
  | del (pid : Option Int)

/-- Dispatch of one request in the in-memory variant: the response and
the stored collection afterwards. -/
def step : Request → List Capybara → Response × List Capybara
  | .list, s => (listCapybaras s, s)
  | .get pid, s => (getCapybara pid s, s)
  | .post name, s => postCapybara name s
  | .put pid name, s => putCapybara pid name s
  | .del pid, s => deleteCapybara pid s

/-- The stored collections reachable from the initial empty array by
any sequence of requests. -/
inductive Reachable : List Capybara → Prop
  | init : Reachable []
  | next (r : Request) {s : List Capybara} :
      Reachable s → Reachable (step r s).2

/-- Helper: a step from a reachable state reaches the computed state. -/
theorem reachable_of_step (r : Request) {s t : List Capybara}
    (h : Reachable s) (e : (step r s).2 = t) : Reachable t :=
  e ▸ Reachable.next r h

/-!
The relational variant.  The handlers are in the unnamed module; they
issue one SQL statement each against the `capybara` table (primary key
`id`, serial; `name` not null).  We model the table as its list of rows
together with the next value of the serial sequence, and give each SQL
statement its standard meaning over that model; the handler logic
around the statement is translated directly from the source.
-/

/-- The `capybara` table: rows plus the next serial id.  The serial
sequence only ever advances, so ids are never reused. -/
structure PgTable where
  rows : List Capybara
  nextId : Int
deriving Repr, DecidableEq

/-- Relational `POST /capybaras`: falsy-name check, then
`INSERT INTO capybara (name) VALUES ($1) RETURNING *` — the new row
takes the next serial id and is appended. -/
def pgPost (name : Option String) (t : PgTable) : Response × PgTable :=
  if nameFalsy name then (⟨400, .message "Name is required"⟩, t)
  else
    let c : Capybara := ⟨t.nextId, name.getD ""⟩
    (⟨201, .one c⟩, ⟨t.rows ++ [c], t.nextId + 1⟩)

/-- Relational `PUT /capybaras/:id`: falsy-name check FIRST (before any
query), then `UPDATE capybara SET name = $1 WHERE id = $2 RETURNING *`;
zero returned rows means 404, otherwise 200 with the updated row. -/
def pgPut (pid : Int) (name : Option String) (t : PgTable) :
    Response × PgTable :=
  if nameFalsy name then (⟨400, .message "Name is required"⟩, t)
  else
    match t.rows.find? (fun c => c.id == pid) with
    | none => (⟨404, .message "Capybara not found"⟩, t)
    | some c =>
      let n := name.getD ""
      (⟨200, .one { c with name := n }⟩,
        ⟨t.rows.map (fun x => if x.id == pid then { x with name := n } else x),
          t.nextId⟩)

/-- The state `[⟨2, b⟩]` is reachable: create two capybaras, then
delete the first. -/
theorem reachable_single_survivor : Reachable [⟨2, "b"⟩] := by
  have h1 : Reachable [⟨1, "a"⟩] :=
    reachable_of_step (.post (some "a")) Reachable.init (by decide)
  have h2 : Reachable [⟨1, "a"⟩, ⟨2, "b"⟩] :=
    reachable_of_step (.post (some "b")) h1 (by decide)
  exact reachable_of_step (.del (some 1)) h2 (by decide)

/-- From `[⟨2, b⟩]`, a further create is assigned `id = length + 1 = 2`,
the id of the surviving record: the state `[⟨2, b⟩, ⟨2, c⟩]` with a
duplicated id is reachable. -/
theorem reachable_duplicate_ids : Reachable [⟨2, "b"⟩, ⟨2, "c"⟩] :=
  reachable_of_step (.post (some "c")) reachable_single_survivor (by decide)

/-- The state `[⟨2, b⟩, ⟨4, d⟩, ⟨3, e⟩]` is reachable: create four,
delete ids 1 and 3, then create again (assigned `id = 2 + 1 = 3`). -/
theorem reachable_unsorted : Reachable [⟨2, "b"⟩, ⟨4, "d"⟩, ⟨3, "e"⟩] := by
  have h1 : Reachable [⟨1, "a"⟩] :=
    reachable_of_step (.post (some "a")) Reachable.init (by decide)
  have h2 : Reachable [⟨1, "a"⟩, ⟨2, "b"⟩] :=
    reachable_of_step (.post (some "b")) h1 (by decide)
  have h3 : Reachable [⟨1, "a"⟩, ⟨2, "b"⟩, ⟨3, "c"⟩] :=
    reachable_of_step (.post (some "c")) h2 (by decide)
  have h4 : Reachable [⟨1, "a"⟩, ⟨2, "b"⟩, ⟨3, "c"⟩, ⟨4, "d"⟩] :=
    reachable_of_step (.post (some "d")) h3 (by decide)
  have h5 : Reachable [⟨2, "b"⟩, ⟨3, "c"⟩, ⟨4, "d"⟩] :=
    reachable_of_step (.del (some 1)) h4 (by decide)
  have h6 : Reachable [⟨2, "b"⟩, ⟨4, "d"⟩] :=
    reachable_of_step (.del (some 3)) h5 (by decide)
  exact reachable_of_step (.post (some "e")) h6 (by decide)

/-- C1: the claimed invariant fails on the code.  The collection
`[⟨2, b⟩, ⟨2, c⟩]` is reachable (create a, create b, delete 1,
create c: the insert assigns `id = length + 1 = 2`, the id of the
surviving record), and its ids are not pairwise distinct — the
in-memory insert does reuse ids after a deletion. -/
theorem id_uniqueness_invariant_violated :
    Reachable [⟨2, "b"⟩, ⟨2, "c"⟩] ∧
    ¬ List.Pairwise (fun a b : Capybara => a.id ≠ b.id)
      [⟨2, "b"⟩, ⟨2, "c"⟩] :=
  ⟨reachable_duplicate_ids, by decide⟩

/-- C2: from the reachable collection `[⟨2, b⟩]`, `POST {name: c}`
answers 201 with assigned id 2, but the immediately following
`GET /capybaras/2` answers 200 with the OLD record `⟨2, b⟩` (the first
match), whose name `b` differs from the posted name `c`. -/
theorem post_then_get_wrong_name :
    Reachable [⟨2, "b"⟩] ∧
    step (.post (some "c")) [⟨2, "b"⟩] =
      (⟨201, .one ⟨2, "c"⟩⟩, [⟨2, "b"⟩, ⟨2, "c"⟩]) ∧
    (step (.get (some 2)) [⟨2, "b"⟩, ⟨2, "c"⟩]).1 = ⟨200, .one ⟨2, "b"⟩⟩ ∧
    "b" ≠ "c" :=
  ⟨reachable_single_survivor, by decide, by decide, by decide⟩

/-- C3: from the reachable collection `[⟨2, b⟩, ⟨2, c⟩]`,
`DELETE /capybaras/2` succeeds (204) but removes only the first record
with id 2, and the immediately following `GET /capybaras/2` answers
200, not the claimed 404. -/
theorem delete_then_get_not_404 :
    Reachable [⟨2, "b"⟩, ⟨2, "c"⟩] ∧
    step (.del (some 2)) [⟨2, "b"⟩, ⟨2, "c"⟩] =
      (⟨204, .empty⟩, [⟨2, "c"⟩]) ∧
    (step (.get (some 2)) [⟨2, "c"⟩]).1.status = 200 ∧
    (200 : Nat) ≠ 404 :=
  ⟨reachable_duplicate_ids, by decide, by decide, by decide⟩

/-- C5 counterexample: in the relational variant, `PUT /capybaras/5`
with body `{name: ""}` on an empty table (id 5 absent) answers 400,
not the claimed 404 — the name check runs before the existence check. -/
theorem pg_put_absent_id_empty_name_400 :
    (pgPut 5 (some "") ⟨[], 1⟩).1.status = 400 ∧ (400 : Nat) ≠ 404 :=
  ⟨by decide, by decide⟩

/-- C5 amended: `PUT` on an absent id answers 404 regardless of the
body in the in-memory variant; in the relational variant it answers
404 when the body carries a non-empty name, and 400 otherwise. -/
theorem put_absent_id_404 :
    (∀ (s : List Capybara) (pid : Option Int) (b : Option String),
      s.find? (idMatches pid) = none →
      (putCapybara pid b s).1.status = 404) ∧
    (∀ (t : PgTable) (pid : Int) (n : String),
      n.isEmpty = false →
      t.rows.find? (fun c => c.id == pid) = none →
      (pgPut pid (some n) t).1.status = 404) := by
  constructor
  · intro s pid b h
    simp [putCapybara, h]
  · intro t pid n h1 h2
    simp [pgPut, nameFalsy, h1, h2]

/-- Witness for the amended C5 at concrete inputs. -/
theorem put_absent_id_404_witness :
    (putCapybara (some 1) (some "x") []).1.status = 404 ∧
    (pgPut 1 (some "x") ⟨[], 1⟩).1.status = 404 :=
  ⟨put_absent_id_404.1 [] (some 1) (some "x") rfl,
   put_absent_id_404.2 ⟨[], 1⟩ 1 "x" (by decide) rfl⟩

/-- C6 counterexample: the in-memory `PUT /capybaras/1` with the
invalid body `{name: ""}` on the empty collection answers 404, not the
claimed 400 — the handler performs the existence lookup before the
name validation. -/
theorem put_invalid_body_absent_id_404 :
    (putCapybara (some 1) (some "") []).1 =
      ⟨404, .message "Capybara not found"⟩ ∧
    (404 : Nat) ≠ 400 :=
  ⟨by decide, by decide⟩

/-- C6 amended: `POST` in both variants and the relational `PUT` answer
400 on a missing/empty name with the stored collection untouched,
whatever its contents (no storage effect); the in-memory `PUT` runs
the id lookup first and answers 400 on a missing/empty name only when
the id exists (it answers 404 otherwise). -/
theorem validation_before_storage :
    (∀ (s : List Capybara) (b : Option String), nameFalsy b = true →
      postCapybara b s = (⟨400, .message "Name is required"⟩, s)) ∧
    (∀ (t : PgTable) (b : Option String), nameFalsy b = true →
      pgPost b t = (⟨400, .message "Name is required"⟩, t)) ∧
    (∀ (t : PgTable) (pid : Int) (b : Option String), nameFalsy b = true →
      pgPut pid b t = (⟨400, .message "Name is required"⟩, t)) ∧
    (∀ (s : List Capybara) (pid : Option Int) (b : Option String)
      (c : Capybara), s.find? (idMatches pid) = some c → nameFalsy b = true →
      putCapybara pid b s = (⟨400, .message "Name is required"⟩, s)) := by
  refine ⟨?_, ?_, ?_, ?_⟩
  · intro s b h
    simp [postCapybara, h]
  · intro t b h
    simp [pgPost, h]
  · intro t pid b h
    simp [pgPut, h]
  · intro s pid b c h1 h2
    simp [putCapybara, h1, h2]

/-- Witness for the amended C6 at concrete inputs. -/
theorem validation_before_storage_witness :
    postCapybara none [] = (⟨400, .message "Name is required"⟩, []) ∧
    pgPost (some "") ⟨[], 1⟩ = (⟨400, .message "Name is required"⟩, ⟨[], 1⟩) ∧
    pgPut 1 none ⟨[], 1⟩ = (⟨400, .message "Name is required"⟩, ⟨[], 1⟩) ∧
    putCapybara (some 1) (some "") [⟨1, "a"⟩] =
      (⟨400, .message "Name is required"⟩, [⟨1, "a"⟩]) :=
  ⟨validation_before_storage.1 [] none rfl,
   validation_before_storage.2.1 ⟨[], 1⟩ (some "") (by decide),
   validation_before_storage.2.2.1 ⟨[], 1⟩ 1 none rfl,
   validation_before_storage.2.2.2 [⟨1, "a"⟩] (some 1) (some "") ⟨1, "a"⟩
     (by decide) (by decide)⟩

/-- C7: on every reachable collection, `POST` with body `{}` or with
body `{name: ""}` answers 400 and leaves the collection untouched, so
a subsequent `GET /capybaras` returns the same array as before. -/
theorem post_invalid_name_unchanged :
    ∀ s : List Capybara, Reachable s →
      postCapybara none s = (⟨400, .message "Name is required"⟩, s) ∧
      postCapybara (some "") s = (⟨400, .message "Name is required"⟩, s) ∧
      listCapybaras (postCapybara none s).2 = listCapybaras s ∧
      listCapybaras (postCapybara (some "") s).2 = listCapybaras s := by
  intro s _
  have h1 : postCapybara none s = (⟨400, .message "Name is required"⟩, s) := by
    simp [postCapybara, nameFalsy]
  have h2 : postCapybara (some "") s =
      (⟨400, .message "Name is required"⟩, s) := by
    simp [postCapybara, nameFalsy, String.isEmpty]
  exact ⟨h1, h2, by rw [h1], by rw [h2]⟩

/-- Witness for C7 at the reachable empty collection. -/
theorem post_invalid_name_unchanged_witness :
    postCapybara none [] = (⟨400, .message "Name is required"⟩, []) ∧
    postCapybara (some "") [] = (⟨400, .message "Name is required"⟩, []) ∧
    listCapybaras (postCapybara none []).2 = listCapybaras [] ∧
    listCapybaras (postCapybara (some "") []).2 = listCapybaras [] :=
  post_invalid_name_unchanged [] Reachable.init

/-- C4: the reachable collection `[⟨2, b⟩, ⟨4, d⟩, ⟨3, e⟩]` is returned
by `GET /capybaras` exactly as stored (the in-memory handler performs
no sorting), and it is not in ascending order of id. -/
theorem list_not_sorted_by_id :
    Reachable [⟨2, "b"⟩, ⟨4, "d"⟩, ⟨3, "e"⟩] ∧
    (step .list [⟨2, "b"⟩, ⟨4, "d"⟩, ⟨3, "e"⟩]).1 =
      ⟨200, .list [⟨2, "b"⟩, ⟨4, "d"⟩, ⟨3, "e"⟩]⟩ ∧
    ¬ List.Pairwise (fun a b : Capybara => a.id ≤ b.id)
      [⟨2, "b"⟩, ⟨4, "d"⟩, ⟨3, "e"⟩] :=
  ⟨reachable_unsorted, by decide, by decide⟩

/-- C8: whenever the in-memory `DELETE` succeeds (204), it removes
exactly the first record whose id matches: the element at the found
index matches, every earlier element does not, the resulting collection
is the prefix before it followed by the suffix after it (so every other
record is unchanged and keeps its relative order), and the length drops
by exactly one. -/
theorem delete_removes_first_match :
    ∀ (s : List Capybara) (pid : Option Int),
      (deleteCapybara pid s).1.status = 204 →
      ∃ i, s.findIdx? (idMatches pid) = some i ∧
        ∃ h : i < s.length,
          idMatches pid (s.get ⟨i, h⟩) = true ∧
          (∀ j (hj : j < i), idMatches pid (s.get ⟨j, Nat.lt_trans hj h⟩) = false) ∧
          (deleteCapybara pid s).2 = s.take i ++ s.drop (i + 1) ∧
          (deleteCapybara pid s).2.length + 1 = s.length := by
  intro s pid h
  cases hf : s.findIdx? (idMatches pid) with
  | none =>
    rw [deleteCapybara, hf] at h
    simp at h
  | some i =>
    obtain ⟨hlt, hp, hprev⟩ := List.findIdx?_eq_some_iff_getElem.mp hf
    have hres : (deleteCapybara pid s).2 = s.eraseIdx i := by
      rw [deleteCapybara, hf]
    refine ⟨i, rfl, hlt, ?_, ?_, ?_, ?_⟩
    · simpa using hp
    · intro j hj
      have := hprev j hj
      simpa using this
    · rw [hres, List.eraseIdx_eq_take_drop_succ]
    · rw [hres, List.length_eraseIdx_of_lt hlt]
      omega

/-- Witness for C8: deleting id 1 from `[⟨1, a⟩]` succeeds and removes
the first (only) match. -/
theorem delete_removes_first_match_witness :
    ∃ i, ([⟨1, "a"⟩] : List Capybara).findIdx? (idMatches (some 1)) = some i ∧
      ∃ h : i < ([⟨1, "a"⟩] : List Capybara).length,
        idMatches (some 1) (([⟨1, "a"⟩] : List Capybara).get ⟨i, h⟩) = true ∧
        (∀ j (hj : j < i), idMatches (some 1)
          (([⟨1, "a"⟩] : List Capybara).get ⟨j, Nat.lt_trans hj h⟩) = false) ∧
        (deleteCapybara (some 1) [⟨1, "a"⟩]).2 =
          ([⟨1, "a"⟩] : List Capybara).take i ++
            ([⟨1, "a"⟩] : List Capybara).drop (i + 1) ∧
        (deleteCapybara (some 1) [⟨1, "a"⟩]).2.length + 1 =
          ([⟨1, "a"⟩] : List Capybara).length :=
  delete_removes_first_match [⟨1, "a"⟩] (some 1) (by decide)

/-- C9: a path id whose `parseInt` is `NaN` (modelled by `none`) makes
the matching predicate false everywhere, so the in-memory GET, PUT and
DELETE by-id handlers all answer 404 with message
`Capybara not found`, leave the collection untouched, and never answer
400 or crash. -/
theorem nan_id_yields_not_found :
    ∀ (s : List Capybara) (b : Option String),
      getCapybara none s = ⟨404, .message "Capybara not found"⟩ ∧
      putCapybara none b s = (⟨404, .message "Capybara not found"⟩, s) ∧
      deleteCapybara none s = (⟨404, .message "Capybara not found"⟩, s) := by
  intro s b
  have h1 : s.find? (idMatches none) = none := by
    simp [List.find?_eq_none, idMatches]
  have h2 : s.findIdx? (idMatches none) = none := by
    simp [List.findIdx?_eq_none_iff, idMatches]
  refine ⟨?_, ?_, ?_⟩
  · rw [getCapybara, h1]
  · rw [putCapybara, h1]
  · rw [deleteCapybara, h2]

/-- C10: the in-memory variant is deterministic — one dispatch function
computes every handler, so equal requests on equal stored collections
give equal responses and equal resulting collections. -/
theorem handlers_deterministic :
    ∀ (r₁ r₂ : Request) (s₁ s₂ : List Capybara),
      r₁ = r₂ → s₁ = s₂ → step r₁ s₁ = step r₂ s₂ := by
  intro r₁ r₂ s₁ s₂ h1 h2
  rw [h1, h2]

/-- Witness for C10 at a concrete request and collection. -/
theorem handlers_deterministic_witness :
    step (.get (some 1)) [⟨1, "a"⟩] = step (.get (some 1)) [⟨1, "a"⟩] :=
  handlers_deterministic (.get (some 1)) (.get (some 1))
    [⟨1, "a"⟩] [⟨1, "a"⟩] rfl rfl
